import Mathlib

/-!
Verification of the Distributed-Systems-Monitoring core against its
natural-language specification.  The Go sources are shallowly embedded:
machine integers (`int64`, `uint`) become `Int`/`Nat`, `time.Time`
instants become `Int` nanoseconds, nullable pointers become `Option`,
and the database / queue side effects are made explicit (state passing
for the services table, an action trace for the worker loop).
-/

namespace DHM

/-- Embedding of `models.ExternalService` (models/models.go).  `Status` is the
raw string column ("UP"/"DOWN"), `LastCheckedAt` the nullable instant. -/
structure ExternalService where
  id : Nat
  name : String
  url : String
  httpMethod : String
  protocol : String
  interval : Int
  timeoutSeconds : Int
  failureThreshold : Int
  status : String
  consecutiveFailures : Int
  lastCheckedAt : Option Int
  deriving Repr, DecidableEq

/-- Embedding of `models.ServiceCheckLog` (the probe-log row written by
`SaveServiceCheckLog`). -/
structure ServiceCheckLog where
  externalServiceID : Nat
  status : String
  statusCode : Int
  responseTimeMs : Int
  errorMessage : String
  checkedAt : Int
  deriving Repr, DecidableEq

/-- Embedding of `Repository.StateChange`. -/
structure StateChange where
  From : String
  To : String
  deriving Repr, DecidableEq

/-- Embedding of `ExternalService.ShouldMarkDown`:
`s.ConsecutiveFailures >= s.FailureThreshold`. -/
def ShouldMarkDown (s : ExternalService) : Bool :=
  decide (s.failureThreshold ≤ s.consecutiveFailures)

/-- Embedding of `ExternalService.RecordSuccess`: reset the counter, set the
status to "UP" and stamp `LastCheckedAt` with the current instant. -/
def RecordSuccess (s : ExternalService) (now : Int) : ExternalService :=
  { s with status := "UP", consecutiveFailures := 0, lastCheckedAt := some now }

/-- Embedding of `ExternalService.RecordFailure`: increment the counter, stamp
`LastCheckedAt`, and mark the service DOWN when the threshold is reached. -/
def RecordFailure (s : ExternalService) (now : Int) : ExternalService :=
  let s' := { s with consecutiveFailures := s.consecutiveFailures + 1,
                     lastCheckedAt := some now }
  if ShouldMarkDown s' then { s' with status := "DOWN" } else s'

/-- Embedding of `DbRepository.UpdateServiceState` (Repository.go), pure part:
apply the state machine and report the transition when the status crossed.
The `gorm` `Save` is assumed to succeed (the claim speaks of calls that
complete without error). -/
def UpdateServiceState (s : ExternalService) (success : Bool) (now : Int) :
    ExternalService × Option StateChange :=
  let s' := if success then RecordSuccess s now else RecordFailure s now
  if s.status ≠ s'.status then
    (s', some { From := s.status, To := s'.status })
  else
    (s', none)

/-- The data-model invariants of spec §3 on a service record. -/
def Invariant (s : ExternalService) : Prop :=
  (s.status = "UP" ∨ s.status = "DOWN") ∧
  (s.status = "DOWN" ↔ s.failureThreshold ≤ s.consecutiveFailures) ∧
  (s.status = "UP" → s.consecutiveFailures = 0) ∧
  0 ≤ s.consecutiveFailures

instance (s : ExternalService) : Decidable (Invariant s) := by
  unfold Invariant; infer_instance

/-- A concrete healthy service (status UP, counter 0, threshold 3) used to
exercise the state-update invariants. -/
def svcC1 : ExternalService :=
  { id := 1, name := "A", url := "http://x/health", httpMethod := "GET",
    protocol := "HTTP", interval := 30, timeoutSeconds := 5,
    failureThreshold := 3, status := "UP", consecutiveFailures := 0,
    lastCheckedAt := none }

/-- A service whose counter already exceeds its threshold (status UP, counter 5,
threshold 3), used to exercise the unsaturated failure counter. -/
def svcC4 : ExternalService :=
  { id := 2, name := "B", url := "http://y/health", httpMethod := "GET",
    protocol := "HTTP", interval := 30, timeoutSeconds := 5,
    failureThreshold := 3, status := "UP", consecutiveFailures := 5,
    lastCheckedAt := none }

/-- A service currently DOWN at its threshold (counter 3, threshold 3), one
successful probe away from recovery. -/
def svcC2 : ExternalService :=
  { id := 4, name := "D", url := "http://d/health", httpMethod := "GET",
    protocol := "HTTP", interval := 30, timeoutSeconds := 5,
    failureThreshold := 3, status := "DOWN", consecutiveFailures := 3,
    lastCheckedAt := none }

/-- Sequentially apply probe outcomes (`true` = success) through the state
machine, as repeated worker state updates at instant `now`. -/
def applyOutcomes (s : ExternalService) (outcomes : List Bool) (now : Int) :
    ExternalService :=
  outcomes.foldl
    (fun st b => if b then RecordSuccess st now else RecordFailure st now) s

/-- Embedding of `HealthCheckJob` (Service/scheduler.go); `timeout` is a
`time.Duration` in nanoseconds. -/
structure HealthCheckJob where
  serviceName : String
  url : String
  timeout : Int
  method : String
  deriving Repr, DecidableEq

/-- Nanoseconds in one `time.Second`, used wherever the Go code multiplies a
seconds column by `time.Second`. -/
def nsPerSecond : Int := 1000000000

/-- Embedding of `shouldRun` (Service/Service.go): due when never checked, or
when `now` is strictly after `LastCheckedAt + Interval` seconds. -/
def shouldRun (s : ExternalService) (now : Int) : Bool :=
  match s.lastCheckedAt with
  | none => true
  | some t => decide (t + s.interval * nsPerSecond < now)

/-- The job the Scheduler constructs for a due service (Service/Service.go,
`Engine.Scheduler` tick body). -/
def mkJob (s : ExternalService) : HealthCheckJob :=
  { serviceName := s.name, url := s.url,
    timeout := s.timeoutSeconds * nsPerSecond, method := s.httpMethod }

/-- The queue job probing svcC2. -/
def jobC2 : HealthCheckJob :=
  { serviceName := "D", url := "http://d/health", timeout := 5000000000,
    method := "GET" }

/-- The services a single Scheduler tick selects for probing. -/
def dueServices (services : List ExternalService) (now : Int) :
    List ExternalService :=
  services.filter (fun s => shouldRun s now)

/-- One Scheduler tick over a fetched snapshot: publish one job per due
service (publish failures are logged and do not remove the attempt). -/
def schedulerTick (services : List ExternalService) (now : Int) :
    List HealthCheckJob :=
  (dueServices services now).map mkJob

/-- Outcome of one HTTP probe as classified by the Worker
(Service/worker.go lines 84-106). -/
structure ProbeOutcome where
  status : String
  statusCode : Int
  errorMsg : String
  success : Bool
  deriving Repr, DecidableEq

/-- Embedding of the Worker's outcome classification: the round trip either
produced a transport error (text) or a response status code; defaults are
status "DOWN", code 0, empty error, failure. -/
def classifyProbe (resp : Except String Int) : ProbeOutcome :=
  match resp with
  | .error e => { status := "DOWN", statusCode := 0, errorMsg := e, success := false }
  | .ok code =>
      if code < 400 then
        { status := "UP", statusCode := code, errorMsg := "", success := true }
      else
        { status := "DOWN", statusCode := code, errorMsg := "", success := false }

/-- The probe-log row `SaveServiceCheckLog` builds for an outcome. -/
def mkCheckLog (s : ExternalService) (o : ProbeOutcome)
    (latencyMs now : Int) : ServiceCheckLog :=
  { externalServiceID := s.id, status := o.status, statusCode := o.statusCode,
    responseTimeMs := latencyMs, errorMessage := o.errorMsg, checkedAt := now }

/-- One observable effect of the Worker loop body, in program order. -/
inductive WorkerAction where
  | nack : WorkerAction
  | appendLog : ServiceCheckLog → WorkerAction
  | updateState : Bool → WorkerAction
  | broadcast : StateChange → WorkerAction
  | ack : WorkerAction
  deriving Repr, DecidableEq

/-- Whether a worker action is the probe-log append. -/
def WorkerAction.isLog : WorkerAction → Bool
  | .appendLog _ => true
  | _ => false

/-- Embedding of one iteration of `Engine.StartWorker`'s delivery loop as the
ordered trace of its effects: decode failure, unknown service, or a bad
request each nack; otherwise the log is appended, the state updated, the
transition (if any) broadcast, and the message acked last. -/
def processMessage (decoded : Option HealthCheckJob)
    (lookup : Option ExternalService) (reqOk : Bool)
    (resp : Except String Int) (latencyMs now : Int) : List WorkerAction :=
  match decoded with
  | none => [WorkerAction.nack]
  | some _job =>
    match lookup with
    | none => [WorkerAction.nack]
    | some service =>
      if reqOk = false then [WorkerAction.nack]
      else
        let o := classifyProbe resp
        let r := UpdateServiceState service o.success now
        [WorkerAction.appendLog (mkCheckLog service o latencyMs now),
         WorkerAction.updateState o.success]
          ++ (match r.2 with
              | some c => [WorkerAction.broadcast c]
              | none => [])
          ++ [WorkerAction.ack]

/-- A connected WebSocket client: identity plus the contents of its bounded
`Send` buffer (oldest first). -/
structure Subscriber where
  sid : Nat
  buffer : List String
  deriving Repr, DecidableEq

/-- Capacity of the `Send` channel created for each client in
`Engine.HandleWebSocket`. -/
def sendCap : Nat := 256

/-- A freshly connected subscriber with an empty outbound buffer. -/
def subC6 : Subscriber := { sid := 0, buffer := [] }

/-- One client visit of the Hub's broadcast case: a non-blocking enqueue keeps
the client (message appended), a full buffer moves it to the closed list. -/
def hubBroadcastStep (cap : Nat) (msg : String)
    (acc : List Subscriber × List Subscriber) (c : Subscriber) :
    List Subscriber × List Subscriber :=
  if c.buffer.length < cap then
    (acc.1 ++ [{ c with buffer := c.buffer ++ [msg] }], acc.2)
  else
    (acc.1, acc.2 ++ [c])

/-- Embedding of the `broadcast` case of `Hub.Run`: visit every client in
order, returning the surviving set and the evicted-and-closed clients. -/
def hubBroadcast (cap : Nat) (msg : String) (clients : List Subscriber) :
    List Subscriber × List Subscriber :=
  clients.foldl (hubBroadcastStep cap msg) ([], [])

/-- Survivor set after the Hub processes a sequence of broadcast payloads in
reception order. -/
def hubRunBroadcasts (cap : Nat) (msgs : List String)
    (clients : List Subscriber) : List Subscriber :=
  msgs.foldl (fun cs m => (hubBroadcast cap m cs).1) clients

/-- Embedding of the validation prefix of `DbRepository.RegisterService`:
the error text of the first failing check, or `none` when the record is
accepted and saved. -/
def validateService (s : ExternalService) : Option String :=
  if s.name = "" then some "service name is empty"
  else if s.url = "" then some "service url is empty"
  else if s.httpMethod = "" then some "service http method is empty"
  else if s.timeoutSeconds = 0 ∨ s.timeoutSeconds < 0 then
    some "service timeout is invalid"
  else if s.httpMethod ≠ "GET" ∧ s.httpMethod ≠ "POST" ∧ s.httpMethod ≠ "PUT" ∧
      s.httpMethod ≠ "DELETE" ∧ s.httpMethod ≠ "PATCH" then
    some "service http method is invalid"
  else if s.failureThreshold = 0 ∨ s.failureThreshold < 0 then
    some "service failure threshold is invalid"
  else if s.interval = 0 ∨ s.interval < 0 then
    some "service interval is invalid"
  else none

/-- Embedding of `DbRepository.RegisterService` acting on the services table
(a row list): a validation failure returns the error and leaves the table
unchanged; otherwise the row is saved. -/
def RegisterService (table : List ExternalService) (s : ExternalService) :
    List ExternalService × Option String :=
  match validateService s with
  | some e => (table, some e)
  | none => (table ++ [s], none)

/-- Embedding of the HTTP handler `Engine.RegisterService`
(Service/Service.go): a body that fails to bind (or binds to nil) yields 400;
a repository error yields 500; success yields 201 with the row persisted. -/
def registerHandler (body : Option ExternalService)
    (table : List ExternalService) : Nat × List ExternalService :=
  match body with
  | none => (400, table)
  | some s =>
    match RegisterService table s with
    | (_, some _) => (500, table)
    | (table', none) => (201, table')

/-- A service record failing validation with an unknown HTTP method, matching
the spec's seed test (register with method "FOO"). -/
def svcFOO : ExternalService :=
  { id := 3, name := "C", url := "http://z/health", httpMethod := "FOO",
    protocol := "HTTP", interval := 60, timeoutSeconds := 10,
    failureThreshold := 3, status := "UP", consecutiveFailures := 0,
    lastCheckedAt := none }

/-- Map assignment `cache[ id ] = service` on an association-list model of the
process-wide service cache. -/
def cachePut (m : List (Nat × ExternalService)) (s : ExternalService) :
    List (Nat × ExternalService) :=
  m.filter (fun p => p.1 ≠ s.id) ++ [(s.id, s)]

/-- Embedding of `DbRepository.GetAllServices`: an empty query result returns
a nil map with the error "no services found"; otherwise every row is inserted
into the cache map, which is returned. -/
def GetAllServices (cache : List (Nat × ExternalService))
    (rows : List ExternalService) :
    Except String (List (Nat × ExternalService)) :=
  if rows.length = 0 then .error "no services found"
  else .ok (rows.foldl cachePut cache)

/-- One full Scheduler round including the registry fetch: a fetch error is
logged and the round publishes nothing; otherwise the tick runs over the
snapshot. -/
def schedulerRound (cache : List (Nat × ExternalService))
    (rows : List ExternalService) (now : Int) : List HealthCheckJob :=
  match GetAllServices cache rows with
  | .error _ => []
  | .ok m => schedulerTick (m.map Prod.snd) now

/-- The returned record of a state update is the state-machine result,
whether or not the status crossed. -/
theorem updateServiceState_fst (s : ExternalService) (b : Bool) (now : Int) :
    (UpdateServiceState s b now).1 =
      if b then RecordSuccess s now else RecordFailure s now := by
  unfold UpdateServiceState
  dsimp only
  split <;> split <;> rfl

/-- A failure increments the counter by exactly one. -/
theorem recordFailure_count (s : ExternalService) (now : Int) :
    (RecordFailure s now).consecutiveFailures = s.consecutiveFailures + 1 := by
  unfold RecordFailure
  dsimp only
  split <;> rfl

/-- A failure leaves the threshold unchanged. -/
theorem recordFailure_threshold (s : ExternalService) (now : Int) :
    (RecordFailure s now).failureThreshold = s.failureThreshold := by
  unfold RecordFailure
  dsimp only
  split <;> rfl

/-- The status after a failure: DOWN when the incremented counter reaches the
threshold, otherwise unchanged. -/
theorem recordFailure_status (s : ExternalService) (now : Int) :
    (RecordFailure s now).status =
      (if s.failureThreshold ≤ s.consecutiveFailures + 1 then "DOWN"
       else s.status) := by
  unfold RecordFailure ShouldMarkDown
  dsimp only
  by_cases h : s.failureThreshold ≤ s.consecutiveFailures + 1
  · rw [if_pos h, if_pos (by simpa using h)]
  · rw [if_neg h, if_neg (by simpa using h)]

/-- C1: the claim fails as stated.  The service svcC1 satisfies the
data-model invariants and has threshold 3 ≥ 1, yet after
UpdateServiceState(svcC1, false) completes, the persisted record has
status "UP" with consecutive_failures = 1 ≠ 0, violating the claimed
"status = UP implies consecutive_failures = 0". -/
theorem C1_counterexample :
    Invariant svcC1 ∧ 1 ≤ svcC1.failureThreshold ∧
    (UpdateServiceState svcC1 false 0).1.status = "UP" ∧
    (UpdateServiceState svcC1 false 0).1.consecutiveFailures ≠ 0 := by
  decide

/-- C1 (amended): for every service satisfying the data-model invariants and
with failure_threshold ≥ 1, after UpdateServiceState(s, success) the
persisted record has status = DOWN iff consecutive_failures ≥
failure_threshold; and when success = true the record has status = UP with
consecutive_failures = 0.  (The unconditional "UP implies counter 0" fails
after a sub-threshold failure.) -/
theorem C1_amended (s : ExternalService) (success : Bool) (now : Int)
    (hinv : Invariant s) (hT : 1 ≤ s.failureThreshold) :
    ((UpdateServiceState s success now).1.status = "DOWN" ↔
      (UpdateServiceState s success now).1.failureThreshold ≤
        (UpdateServiceState s success now).1.consecutiveFailures) ∧
    (success = true → (UpdateServiceState s success now).1.status = "UP" ∧
      (UpdateServiceState s success now).1.consecutiveFailures = 0) := by
  obtain ⟨-, hdown, -, -⟩ := hinv
  rw [updateServiceState_fst]
  cases success with
  | true =>
      simp only [if_true]
      refine ⟨?_, fun _ => ⟨rfl, rfl⟩⟩
      simp only [RecordSuccess]
      constructor
      · intro h
        exact absurd h (by decide)
      · intro h
        exact absurd hT (by omega)
  | false =>
      simp only [Bool.false_eq_true, if_false]
      refine ⟨?_, fun h => by simp at h⟩
      rw [show (RecordFailure s now).status = _ from recordFailure_status s now,
        recordFailure_threshold, recordFailure_count]
      by_cases hmark : s.failureThreshold ≤ s.consecutiveFailures + 1
      · rw [if_pos hmark]
        exact iff_of_true rfl hmark
      · rw [if_neg hmark]
        constructor
        · intro h
          exact absurd (hdown.mp h) (by omega)
        · intro h
          exact absurd h hmark

/-- C1 witness: the amended claim instantiated at svcC1 with a successful
probe. -/
theorem C1_amended_witness :
    Invariant svcC1 ∧ 1 ≤ svcC1.failureThreshold ∧
    ((UpdateServiceState svcC1 true 0).1.status = "DOWN" ↔
      (UpdateServiceState svcC1 true 0).1.failureThreshold ≤
        (UpdateServiceState svcC1 true 0).1.consecutiveFailures) ∧
    (true = true → (UpdateServiceState svcC1 true 0).1.status = "UP" ∧
      (UpdateServiceState svcC1 true 0).1.consecutiveFailures = 0) :=
  ⟨by decide, by decide, C1_amended svcC1 true 0 (by decide) (by decide)⟩

/-- C4: the claim fails as stated.  svcC4 has status UP, counter 5 and
threshold 3; a failure yields counter 6, not the claimed saturated value
min(n+1, T) = 3 (RecordFailure never saturates the counter at T). -/
theorem C4_counterexample :
    svcC4.status = "UP" ∧
    (RecordFailure svcC4 0).consecutiveFailures ≠
      (if svcC4.consecutiveFailures + 1 < svcC4.failureThreshold
       then svcC4.consecutiveFailures + 1 else svcC4.failureThreshold) := by
  decide

/-- C4 (amended): for every service with status UP, counter n and threshold
T, a failure yields counter n + 1 (never saturated) and status UP if
n + 1 < T, else DOWN; when the data-model invariants hold the result agrees
with the claimed saturated value, and with T = 1 a single failure from UP
transitions to DOWN. -/
theorem C4_amended (s : ExternalService) (now : Int) (hup : s.status = "UP") :
    (RecordFailure s now).consecutiveFailures = s.consecutiveFailures + 1 ∧
    (RecordFailure s now).status =
      (if s.consecutiveFailures + 1 < s.failureThreshold then "UP"
       else "DOWN") ∧
    (Invariant s →
      (RecordFailure s now).consecutiveFailures =
        (if s.consecutiveFailures + 1 < s.failureThreshold
         then s.consecutiveFailures + 1 else s.failureThreshold)) ∧
    (s.failureThreshold = 1 → 0 ≤ s.consecutiveFailures →
      (RecordFailure s now).status = "DOWN") := by
  refine ⟨recordFailure_count s now, ?_, ?_, ?_⟩
  · rw [recordFailure_status]
    by_cases h : s.failureThreshold ≤ s.consecutiveFailures + 1
    · rw [if_pos h, if_neg (by omega)]
    · rw [if_neg h, if_pos (by omega), hup]
  · rintro ⟨-, hdown, hzero, -⟩
    have hcf : s.consecutiveFailures = 0 := hzero hup
    have hT : ¬ s.failureThreshold ≤ s.consecutiveFailures := fun h =>
      absurd (hdown.mpr h) (by rw [hup]; decide)
    rw [recordFailure_count, hcf]
    by_cases h1 : (0 : Int) + 1 < s.failureThreshold
    · rw [if_pos h1]
    · rw [if_neg h1]
      omega
  · intro h1 hn
    rw [recordFailure_status, if_pos (by omega)]

/-- C4 witness: the amended claim instantiated at svcC4 (status UP). -/
theorem C4_amended_witness :
    svcC4.status = "UP" ∧
    (RecordFailure svcC4 0).consecutiveFailures =
      svcC4.consecutiveFailures + 1 ∧
    (RecordFailure svcC4 0).status =
      (if svcC4.consecutiveFailures + 1 < svcC4.failureThreshold then "UP"
       else "DOWN") :=
  ⟨by decide, (C4_amended svcC4 0 (by decide)).1,
    (C4_amended svcC4 0 (by decide)).2.1⟩

/-- C9: from any initial record satisfying the data-model invariants, N
consecutive failures followed by one success end with status UP and
consecutive_failures = 0, for every N ≥ 0. -/
theorem C9_failures_then_success (s : ExternalService) (n : Nat) (now : Int)
    (_hinv : Invariant s) :
    (applyOutcomes s (List.replicate n false ++ [true]) now).status = "UP" ∧
    (applyOutcomes s (List.replicate n false ++ [true]) now).consecutiveFailures
      = 0 := by
  unfold applyOutcomes
  rw [List.foldl_append]
  simp [RecordSuccess]

/-- The two cases of a state update: either the status did not cross and no
transition is returned, or it crossed and the transition carries the old and
new status. -/
theorem updateServiceState_cases (s : ExternalService) (b : Bool) (now : Int) :
    (s.status = (UpdateServiceState s b now).1.status ∧
      (UpdateServiceState s b now).2 = none) ∨
    (s.status ≠ (UpdateServiceState s b now).1.status ∧
      (UpdateServiceState s b now).2 =
        some { From := s.status,
               To := (UpdateServiceState s b now).1.status }) := by
  unfold UpdateServiceState
  dsimp only
  by_cases h : s.status ≠
      (if b then RecordSuccess s now else RecordFailure s now).status
  · right
    rw [if_pos h]
    exact ⟨h, rfl⟩
  · left
    rw [if_neg h]
    exact ⟨not_not.mp h, rfl⟩

/-- Membership of a broadcast action in a completed worker trace coincides
with the transition returned by the state update. -/
theorem processMessage_broadcast_mem (job : HealthCheckJob)
    (s : ExternalService) (resp : Except String Int) (latencyMs now : Int)
    (c : StateChange) :
    (WorkerAction.broadcast c ∈
        processMessage (some job) (some s) true resp latencyMs now) ↔
      (UpdateServiceState s (classifyProbe resp).success now).2 = some c := by
  unfold processMessage
  dsimp only
  rw [if_neg (by decide)]
  cases h : (UpdateServiceState s (classifyProbe resp).success now).2 with
  | none => simp [h]
  | some c' => simp [h, eq_comm]

/-- C2: the state update returns a transition exactly when the stored status
changed, the returned From and To are the old and new status, and the Worker
broadcasts an event iff the returned transition is non-null (no event on a
non-transition). -/
theorem C2_state_change (s : ExternalService) (success : Bool) (now : Int)
    (job : HealthCheckJob) (resp : Except String Int) (latencyMs : Int) :
    ((UpdateServiceState s success now).2.isSome ↔
      (UpdateServiceState s success now).1.status ≠ s.status) ∧
    (∀ c, (UpdateServiceState s success now).2 = some c →
      c.From = s.status ∧ c.To = (UpdateServiceState s success now).1.status) ∧
    ((∃ c, WorkerAction.broadcast c ∈
        processMessage (some job) (some s) true resp latencyMs now) ↔
      (UpdateServiceState s (classifyProbe resp).success now).2.isSome) := by
  refine ⟨?_, ?_, ?_⟩
  · rcases updateServiceState_cases s success now with ⟨h1, h2⟩ | ⟨h1, h2⟩
    · rw [h2]
      simp [← h1]
    · rw [h2]
      simpa using Ne.symm h1
  · rcases updateServiceState_cases s success now with ⟨h1, h2⟩ | ⟨h1, h2⟩
    · rw [h2]
      intro c hc
      cases hc
    · rw [h2]
      intro c hc
      cases hc
      exact ⟨rfl, rfl⟩
  · constructor
    · rintro ⟨c, hc⟩
      rw [(processMessage_broadcast_mem job s resp latencyMs now c).mp hc]
      rfl
    · intro hsome
      obtain ⟨c, hc⟩ := Option.isSome_iff_exists.mp hsome
      exact ⟨c, (processMessage_broadcast_mem job s resp latencyMs now c).mpr hc⟩

/-- C2 witness: a recovering service (DOWN, counter 3) probed successfully
yields a non-null transition with From = DOWN and To = UP. -/
theorem C2_witness :
    (UpdateServiceState svcC2 true 0).2.isSome ↔
      (UpdateServiceState svcC2 true 0).1.status ≠ svcC2.status :=
  (C2_state_change svcC2 true 0 jobC2 (Except.ok 200) 5).1

/-- C3: a job the Worker processes to completion produces exactly one
probe-log append, placed before the state update, with the ack last —
after the state update and after any broadcast. -/
theorem C3_worker_trace (job : HealthCheckJob) (s : ExternalService)
    (resp : Except String Int) (latencyMs now : Int) :
    ((processMessage (some job) (some s) true resp latencyMs now).countP
        WorkerAction.isLog = 1) ∧
    ∃ bc, (processMessage (some job) (some s) true resp latencyMs now =
        WorkerAction.appendLog (mkCheckLog s (classifyProbe resp) latencyMs now)
          :: WorkerAction.updateState (classifyProbe resp).success
          :: (bc ++ [WorkerAction.ack])) ∧
      (bc = [] ∨ ∃ c, bc = [WorkerAction.broadcast c]) := by
  unfold processMessage
  dsimp only
  rw [if_neg (by decide)]
  cases h : (UpdateServiceState s (classifyProbe resp).success now).2 with
  | none =>
      refine ⟨?_, [], by simp, Or.inl rfl⟩
      simp [List.countP_cons, WorkerAction.isLog]
  | some c =>
      refine ⟨?_, [WorkerAction.broadcast c], by simp, Or.inr ⟨c, rfl⟩⟩
      simp [List.countP_cons, WorkerAction.isLog]

/-- C3 witness: the trace shape at a concrete job, service and response. -/
theorem C3_witness :
    (processMessage (some jobC2) (some svcC2) true (Except.ok 200) 5 0).countP
        WorkerAction.isLog = 1 :=
  (C3_worker_trace jobC2 svcC2 (Except.ok 200) 5 0).1

/-- C7: a probe succeeds iff a response arrived with status code < 400, a
transport error records status code 0 and the error text, and the log status
is "UP" exactly on success and "DOWN" otherwise. -/
theorem C7_probe_classification (resp : Except String Int) :
    ((classifyProbe resp).success = true ↔
      ∃ code, resp = Except.ok code ∧ code < 400) ∧
    (∀ e, resp = Except.error e →
      (classifyProbe resp).statusCode = 0 ∧
      (classifyProbe resp).errorMsg = e) ∧
    ((classifyProbe resp).status = "UP" ↔ (classifyProbe resp).success = true) ∧
    ((classifyProbe resp).success = false →
      (classifyProbe resp).status = "DOWN") := by
  cases resp with
  | error e => simp [classifyProbe]
  | ok code =>
      by_cases h : code < 400 <;> simp [classifyProbe, h]

/-- C7 witness: a transport error is recorded with status code 0 and the
error text. -/
theorem C7_witness :
    (classifyProbe (Except.error "connection refused")).statusCode = 0 ∧
    (classifyProbe (Except.error "connection refused")).errorMsg =
      "connection refused" :=
  (C7_probe_classification (Except.error "connection refused")).2.1
    "connection refused" rfl

/-- Due-time selection in the source: never-checked services are due, and
otherwise strictly after last_checked_at + interval seconds. -/
theorem shouldRun_iff (s : ExternalService) (now : Int) :
    shouldRun s now = true ↔
      s.lastCheckedAt = none ∨
        ∃ t, s.lastCheckedAt = some t ∧ t + s.interval * nsPerSecond < now := by
  unfold shouldRun
  cases h : s.lastCheckedAt <;> simp [h]

/-- C5: on a tick whose registry fetch succeeded, a service is selected (and
its job published) iff it was never checked or the tick instant is strictly
after last_checked_at + interval seconds; services not due contribute no
job. -/
theorem C5_scheduler_due (services : List ExternalService) (now : Int)
    (s : ExternalService) :
    (s ∈ dueServices services now ↔
      s ∈ services ∧ (s.lastCheckedAt = none ∨
        ∃ t, s.lastCheckedAt = some t ∧ t + s.interval * nsPerSecond < now)) ∧
    schedulerTick services now = (dueServices services now).map mkJob := by
  refine ⟨?_, rfl⟩
  rw [dueServices, List.mem_filter, shouldRun_iff]

/-- C5 witness: a never-checked service is selected on the tick. -/
theorem C5_witness : svcC1 ∈ dueServices [svcC1] 0 :=
  (C5_scheduler_due [svcC1] 0 svcC1).1.mpr ⟨by simp, Or.inl rfl⟩

/-- C10: with zero service rows, GetAllServices returns the error
"no services found" (and only then), and the Scheduler round taken in that
state publishes no jobs. -/
theorem C10_empty_registry (cache : List (Nat × ExternalService)) (now : Int) :
    GetAllServices cache [] = Except.error "no services found" ∧
    (∀ rows, GetAllServices cache rows = Except.error "no services found" ↔
      rows = []) ∧
    schedulerRound cache [] now = [] := by
  refine ⟨rfl, ?_, rfl⟩
  intro rows
  unfold GetAllServices
  cases rows <;> simp

/-- C10 witness: the empty registry at a concrete cache and instant. -/
theorem C10_witness :
    GetAllServices [] [] = Except.error "no services found" :=
  (C10_empty_registry [] 0).1

/-- The broadcast loop with an arbitrary accumulator: kept clients are those
with buffer room (message appended, input order preserved) and the closed
clients are those whose buffers were full. -/
theorem hubBroadcast_foldl (cap : Nat) (msg : String)
    (clients : List Subscriber) (acc : List Subscriber × List Subscriber) :
    clients.foldl (hubBroadcastStep cap msg) acc =
      (acc.1 ++ (clients.filter fun c => c.buffer.length < cap).map
          (fun c => { c with buffer := c.buffer ++ [msg] }),
        acc.2 ++ clients.filter fun c => !(c.buffer.length < cap)) := by
  induction clients generalizing acc with
  | nil => simp
  | cons c cs ih =>
      rw [List.foldl_cons, ih]
      unfold hubBroadcastStep
      by_cases h : c.buffer.length < cap
      · rw [if_pos h]
        simp [List.filter_cons, h]
      · rw [if_neg h]
        simp [List.filter_cons, h]

/-- A lone subscriber with enough free space receives a whole message
sequence appended in reception order. -/
theorem hubRunBroadcasts_single (cap : Nat) (msgs : List String)
    (c : Subscriber) (h : c.buffer.length + msgs.length ≤ cap) :
    hubRunBroadcasts cap msgs [c] =
      [{ c with buffer := c.buffer ++ msgs }] := by
  induction msgs generalizing c with
  | nil => simp [hubRunBroadcasts]
  | cons m ms ih =>
      have hlt : c.buffer.length < cap := by
        simp at h
        omega
      have h1 : (hubBroadcast cap m [c]).1 =
          [{ c with buffer := c.buffer ++ [m] }] := by
        simp [hubBroadcast, hubBroadcastStep, hlt]
      unfold hubRunBroadcasts at ih ⊢
      rw [List.foldl_cons]
      show (List.foldl _ (hubBroadcast cap m [c]).1 ms) = _
      rw [h1, ih]
      · simp
      · simp at h ⊢
        omega

/-- C6: processing one broadcast keeps exactly the subscribers with free
buffer space, each with the payload appended (hence, over a run, in Hub
reception order); subscribers with full buffers are removed and closed; the
result for a group of subscribers is independent of the others; and with
buffer capacity C the (C+1)-th pending message evicts a non-draining
subscriber while the first C are enqueued in order. -/
theorem C6_hub_broadcast (cap : Nat) (msg : String)
    (clients xs ys : List Subscriber) (c : Subscriber)
    (msgs : List String) :
    ((hubBroadcast cap msg clients).1 =
      (clients.filter fun d => d.buffer.length < cap).map
        (fun d => { d with buffer := d.buffer ++ [msg] })) ∧
    ((hubBroadcast cap msg clients).2 =
      clients.filter fun d => !(d.buffer.length < cap)) ∧
    ((hubBroadcast cap msg (xs ++ ys)).1 =
      (hubBroadcast cap msg xs).1 ++ (hubBroadcast cap msg ys).1) ∧
    (c.buffer = [] → msgs.length = cap →
      hubRunBroadcasts cap msgs [c] = [{ c with buffer := msgs }] ∧
      ∀ extra, hubRunBroadcasts cap (msgs ++ [extra]) [c] = []) ∧
    sendCap = 256 := by
  refine ⟨?_, ?_, ?_, ?_, rfl⟩
  · rw [hubBroadcast, hubBroadcast_foldl]
    simp
  · rw [hubBroadcast, hubBroadcast_foldl]
    simp
  · rw [hubBroadcast, hubBroadcast, hubBroadcast, hubBroadcast_foldl,
      hubBroadcast_foldl, hubBroadcast_foldl]
    simp [List.filter_append]
  · intro hbuf hlen
    have hfull : hubRunBroadcasts cap msgs [c] =
        [{ c with buffer := msgs }] := by
      have := hubRunBroadcasts_single cap msgs c (by rw [hbuf, hlen]; simp)
      rw [this, hbuf]
      simp
    refine ⟨hfull, fun extra => ?_⟩
    unfold hubRunBroadcasts
    rw [List.foldl_append]
    show (List.foldl _ (hubRunBroadcasts cap msgs [c]) [extra]) = _
    rw [hfull]
    simp [hubBroadcast, hubBroadcastStep, hlen]

/-- C6 witness: with capacity 2, a fresh subscriber receives two messages in
order and is evicted by the third. -/
theorem C6_witness :
    hubRunBroadcasts 2 ["a", "b"] [subC6] =
      [{ subC6 with buffer := ["a", "b"] }] ∧
    hubRunBroadcasts 2 (["a", "b"] ++ ["x"]) [subC6] = [] :=
  ⟨((C6_hub_broadcast 2 "m" [] [] [] subC6 ["a", "b"]).2.2.2.1 rfl rfl).1,
    ((C6_hub_broadcast 2 "m" [] [] [] subC6 ["a", "b"]).2.2.2.1 rfl rfl).2 "x"⟩

/-- Acceptance of a registration in the source's validation order. -/
theorem validateService_none_iff (s : ExternalService) :
    validateService s = none ↔
      ¬ s.name = "" ∧ ¬ s.url = "" ∧ ¬ s.httpMethod = "" ∧
      ¬ (s.timeoutSeconds = 0 ∨ s.timeoutSeconds < 0) ∧
      ¬ (s.httpMethod ≠ "GET" ∧ s.httpMethod ≠ "POST" ∧ s.httpMethod ≠ "PUT" ∧
          s.httpMethod ≠ "DELETE" ∧ s.httpMethod ≠ "PATCH") ∧
      ¬ (s.failureThreshold = 0 ∨ s.failureThreshold < 0) ∧
      ¬ (s.interval = 0 ∨ s.interval < 0) := by
  unfold validateService
  split_ifs with h1 h2 h3 h4 h5 h6 h7 <;> simp_all

/-- C8: the claim fails as stated.  Registering svcFOO (method "FOO", all
other fields valid) is rejected with no row written, but the HTTP caller
receives status 500, not the claimed 400. -/
theorem C8_counterexample :
    validateService svcFOO ≠ none ∧
    registerHandler (some svcFOO) [] = (500, []) ∧
    (registerHandler (some svcFOO) []).1 ≠ 400 := by
  decide

/-- C8 (amended): a registration failing validation (empty name, empty url,
empty or unknown HTTP method, non-positive timeout, interval or
failure_threshold) is rejected with no row written to the services table and
HTTP status 500 — the handler maps repository validation errors to 500 and
returns 400 only for a body that fails to decode or is null; a valid
registration returns 201 with the persisted service. -/
theorem C8_amended (s : ExternalService) (table : List ExternalService) :
    (validateService s = none ↔
      s.name ≠ "" ∧ s.url ≠ "" ∧ s.httpMethod ≠ "" ∧
      (s.httpMethod = "GET" ∨ s.httpMethod = "POST" ∨ s.httpMethod = "PUT" ∨
        s.httpMethod = "DELETE" ∨ s.httpMethod = "PATCH") ∧
      0 < s.timeoutSeconds ∧ 0 < s.interval ∧ 0 < s.failureThreshold) ∧
    (∀ e, validateService s = some e →
      registerHandler (some s) table = (500, table)) ∧
    (validateService s = none →
      registerHandler (some s) table = (201, table ++ [s])) ∧
    registerHandler none table = (400, table) := by
  refine ⟨?_, ?_, ?_, rfl⟩
  · rw [validateService_none_iff]
    constructor
    · rintro ⟨a, b, d, ht, hm, hf, hi⟩
      refine ⟨a, b, d, by tauto, by omega, by omega, by omega⟩
    · rintro ⟨a, b, d, hm, ht, hi, hf⟩
      refine ⟨a, b, d, by omega, by tauto, by omega, by omega⟩
  · intro e he
    unfold registerHandler RegisterService
    dsimp only
    rw [he]
  · intro he
    unfold registerHandler RegisterService
    dsimp only
    rw [he]

/-- C8 witness: svcFOO is rejected with 500 and no row; a nil body yields
400. -/
theorem C8_amended_witness :
    registerHandler (some svcFOO) [] = (500, []) ∧
    registerHandler none ([] : List ExternalService) = (400, []) :=
  ⟨(C8_amended svcFOO []).2.1 "service http method is invalid" (by decide),
    (C8_amended svcFOO []).2.2.2⟩

/-- C9 witness: three failures then one success from the healthy svcC1. -/
theorem C9_witness :
    Invariant svcC1 ∧
    (applyOutcomes svcC1 (List.replicate 3 false ++ [true]) 0).status = "UP" ∧
    (applyOutcomes svcC1
        (List.replicate 3 false ++ [true]) 0).consecutiveFailures = 0 :=
  ⟨by decide, (C9_failures_then_success svcC1 3 0 (by decide)).1,
    (C9_failures_then_success svcC1 3 0 (by decide)).2⟩

end DHM
